import Mathlib

/-!
# Suspend inhibition in Fedora Media Writer

A shallow embedding of `src/app/suspendinhibitor.cpp` (the three platform
variants of `SuspendInhibitor`) and `src/app/suspendmanager.cpp`
(`SuspendManager`), followed by theorems about them.

Static members become fields of explicit state records.  Every call into the
operating system is answered by an outcome record supplied by the caller of
the model, and every such call is appended to a trace, so that "which calls
were issued, in which order, with which arguments" is part of the result.
-/

namespace MediaWriter

/-! ## Operating-system boundary -/

/-- The three D-Bus services of the `__linux` variant. -/
inductive Service where
  /-- `org.freedesktop.login1` on the system bus. -/
  | logind
  /-- `org.gnome.SessionManager` on the session bus. -/
  | gnomeSession
  /-- `org.kde.Solid.PowerManagement` (PolicyAgent) on the session bus. -/
  | powerDevil
  deriving DecidableEq, Repr

/-- Flags handed to `SetThreadExecutionState` by the `_WIN32` variant. -/
inductive ExecFlag where
  | ES_CONTINUOUS
  | ES_SYSTEM_REQUIRED
  | ES_AWAYMODE_REQUIRED
  deriving DecidableEq, Repr

/-- One interaction with the operating system, as issued by the source. -/
inductive OsCall where
  /-- Construction of the `QDBusInterface` for a service, followed by `isValid()`. -/
  | connect (svc : Service)
  /-- Method `Inhibit("sleep:idle", "Fedora Media Writer", reason, "block")` on logind. -/
  | logindInhibit (reason : String)
  /-- Method `Inhibit("org.fedoraproject.MediaWriter", 0, reason, 8)` on the GNOME session manager. -/
  | gnomeInhibit (reason : String)
  /-- Method `AddInhibition(1, "org.fedoraproject.MediaWriter", reason)` on PowerDevil. -/
  | kdeAddInhibition (reason : String)
  /-- Method `Uninhibit(cookie)` on the GNOME session manager. -/
  | gnomeUninhibit (cookie : Nat)
  /-- Method `ReleaseInhibition(cookie)` on PowerDevil. -/
  | kdeReleaseInhibition (cookie : Nat)
  /-- The call `IOPMAssertionCreateWithName(NoIdleSleep, On, reason, &m_assertionId)`. -/
  | assertionCreate (reason : String)
  /-- The call `IOPMAssertionRelease(assertionId)`. -/
  | assertionRelease (assertionId : Nat)
  /-- The call `SetThreadExecutionState(flags)`. -/
  | setThreadExecutionState (flags : List ExecFlag)
  deriving DecidableEq, Repr

/-- The service an interaction is addressed to, for the D-Bus interactions. -/
def OsCall.service : OsCall → Option Service
  | .connect svc => some svc
  | .logindInhibit _ => some .logind
  | .gnomeInhibit _ => some .gnomeSession
  | .kdeAddInhibition _ => some .powerDevil
  | .gnomeUninhibit _ => some .gnomeSession
  | .kdeReleaseInhibition _ => some .powerDevil
  | _ => none

/-- Whether the interaction is a request to the service or the kernel (everything
except the construction of a D-Bus interface object). -/
def OsCall.isRequest : OsCall → Bool
  | .connect _ => false
  | _ => true

/-- The requests among a list of interactions. -/
def requests (cs : List OsCall) : List OsCall := cs.filter OsCall.isRequest

/-- Number of values of a `uint32_t`. -/
def UINT32_MOD : Nat := 4294967296

/-- What one call of `inhibit` or `release` yields: the returned `bool`, the
static state afterwards and the interactions with the operating system. -/
structure Result (σ : Type) where
  ret : Bool
  state : σ
  calls : List OsCall

/-! ## `SuspendInhibitor`, `__linux` variant -/

namespace Linux

/-- Static members of `SuspendInhibitor` under `__linux`. -/
structure State where
  m_inhibited : Bool
  m_inhibitCookie : Nat
  deriving DecidableEq, Repr

/-- Values of the static members at program start. -/
def State.init : State := ⟨false, 0⟩

/-- Outcomes of the D-Bus interactions that one call of `inhibit` or `release`
may perform. -/
structure Env where
  /-- `logind.isValid()`. -/
  logindValid : Bool
  /-- `reply.isValid()` for logind `Inhibit`. -/
  logindReply : Bool
  /-- `gnomeSession.isValid()`. -/
  gnomeValid : Bool
  /-- Reply of GNOME `Inhibit`: `some cookie` when `reply.isValid()`. -/
  gnomeInhibitReply : Option Nat
  /-- `powerDevil.isValid()`. -/
  kdeValid : Bool
  /-- Reply of PowerDevil `AddInhibition`: `some cookie` when `reply.isValid()`. -/
  kdeInhibitReply : Option Nat
  /-- `reply.isValid()` for GNOME `Uninhibit`. -/
  gnomeUninhibitReply : Bool
  /-- `reply.isValid()` for PowerDevil `ReleaseInhibition`. -/
  kdeReleaseReply : Bool
  deriving DecidableEq, Repr

/-- Lines 81-101 of `inhibit`: the PowerDevil fallback and the final `return false`;
`t` holds the interactions performed so far. -/
def inhibitPowerDevil (env : Env) (reason : String) (s : State) (t : List OsCall) :
    Result State :=
  let t := t ++ [OsCall.connect .powerDevil]
  if env.kdeValid then
    let t := t ++ [OsCall.kdeAddInhibition reason]
    match env.kdeInhibitReply with
    | some cookie =>
        ⟨true, { s with m_inhibitCookie := cookie % UINT32_MOD, m_inhibited := true }, t⟩
    | none => ⟨false, s, t⟩
  else
    ⟨false, s, t⟩

/-- Lines 61-79 of `inhibit`: the GNOME fallback, falling through to PowerDevil. -/
def inhibitGnome (env : Env) (reason : String) (s : State) (t : List OsCall) :
    Result State :=
  let t := t ++ [OsCall.connect .gnomeSession]
  if env.gnomeValid then
    let t := t ++ [OsCall.gnomeInhibit reason]
    match env.gnomeInhibitReply with
    | some cookie =>
        ⟨true, { s with m_inhibitCookie := cookie % UINT32_MOD, m_inhibited := true }, t⟩
    | none => inhibitPowerDevil env reason s t
  else
    inhibitPowerDevil env reason s t

/-- The function `SuspendInhibitor::inhibit` under `__linux`. -/
def inhibit (env : Env) (reason : String) (s : State) : Result State :=
  if s.m_inhibited then
    ⟨true, s, []⟩
  else
    let t := [OsCall.connect .logind]
    if env.logindValid then
      let t := t ++ [OsCall.logindInhibit reason]
      if env.logindReply then
        ⟨true, { s with m_inhibited := true }, t⟩
      else
        inhibitGnome env reason s t
    else
      inhibitGnome env reason s t

/-- Lines 123-133 of `release`: the PowerDevil attempt, made when `success` is
still false; returns the new `success` and the interactions. -/
def releasePowerDevil (env : Env) (cookie : Nat) (success : Bool) : Bool × List OsCall :=
  if !success then
    if env.kdeValid then
      (env.kdeReleaseReply, [OsCall.connect .powerDevil, OsCall.kdeReleaseInhibition cookie])
    else
      (success, [OsCall.connect .powerDevil])
  else
    (success, [])

/-- Lines 114-121 of `release`: the GNOME attempt; returns `success` and the
interactions. -/
def releaseGnome (env : Env) (cookie : Nat) : Bool × List OsCall :=
  if env.gnomeValid then
    (env.gnomeUninhibitReply, [OsCall.connect .gnomeSession, OsCall.gnomeUninhibit cookie])
  else
    (false, [OsCall.connect .gnomeSession])

/-- The function `SuspendInhibitor::release` under `__linux`. -/
def release (env : Env) (s : State) : Result State :=
  if !s.m_inhibited then
    ⟨true, s, []⟩
  else if s.m_inhibitCookie ≠ 0 then
    let g := releaseGnome env s.m_inhibitCookie
    let k := releasePowerDevil env s.m_inhibitCookie g.1
    ⟨k.1, { m_inhibited := false, m_inhibitCookie := 0 }, g.2 ++ k.2⟩
  else
    ⟨true, { s with m_inhibited := false }, []⟩

/-- The function `SuspendInhibitor::isInhibited`. -/
def isInhibited (s : State) : Bool := s.m_inhibited

end Linux

/-! ## `SuspendInhibitor`, `__APPLE__` variant -/

namespace Apple

/-- Static members of `SuspendInhibitor` under `__APPLE__`. -/
structure State where
  m_inhibited : Bool
  m_assertionId : Nat
  deriving DecidableEq, Repr

/-- Values of the static members at program start. -/
def State.init : State := ⟨false, 0⟩

/-- Outcomes of the IOKit calls that one call of `inhibit` or `release` may perform. -/
structure Env where
  /-- `IOPMAssertionCreateWithName(..) == kIOReturnSuccess`. -/
  createSuccess : Bool
  /-- The value the call leaves in its out-parameter `m_assertionId`. -/
  createdId : Nat
  /-- `IOPMAssertionRelease(..) == kIOReturnSuccess`. -/
  releaseSuccess : Bool
  deriving DecidableEq, Repr

/-- The function `SuspendInhibitor::inhibit` under `__APPLE__`. -/
def inhibit (env : Env) (reason : String) (s : State) : Result State :=
  if s.m_inhibited then
    ⟨true, s, []⟩
  else
    let s := { s with m_assertionId := env.createdId % UINT32_MOD }
    if env.createSuccess then
      ⟨true, { s with m_inhibited := true }, [OsCall.assertionCreate reason]⟩
    else
      ⟨false, s, [OsCall.assertionCreate reason]⟩

/-- The function `SuspendInhibitor::release` under `__APPLE__`. -/
def release (env : Env) (s : State) : Result State :=
  if !s.m_inhibited then
    ⟨true, s, []⟩
  else if s.m_assertionId ≠ 0 then
    if env.releaseSuccess then
      ⟨true, { m_assertionId := 0, m_inhibited := false },
        [OsCall.assertionRelease s.m_assertionId]⟩
    else
      ⟨false, s, [OsCall.assertionRelease s.m_assertionId]⟩
  else
    ⟨true, { s with m_inhibited := false }, []⟩

/-- The function `SuspendInhibitor::isInhibited`. -/
def isInhibited (s : State) : Bool := s.m_inhibited

end Apple

/-! ## `SuspendInhibitor`, `_WIN32` variant -/

namespace Win32

/-- Static members of `SuspendInhibitor` under `_WIN32`; the pointer
`m_threadExecutionState` is `nullptr` (0) and never assigned. -/
structure State where
  m_inhibited : Bool
  m_threadExecutionState : Nat
  deriving DecidableEq, Repr

/-- Values of the static members at program start. -/
def State.init : State := ⟨false, 0⟩

/-- Outcome of the one `SetThreadExecutionState` call that `inhibit` or `release`
may perform. -/
structure Env where
  /-- The returned previous execution state; 0 reports failure. -/
  prevState : Nat
  deriving DecidableEq, Repr

/-- The function `SuspendInhibitor::inhibit` under `_WIN32`. -/
def inhibit (env : Env) (_reason : String) (s : State) : Result State :=
  if s.m_inhibited then
    ⟨true, s, []⟩
  else
    let t := [OsCall.setThreadExecutionState
      [.ES_CONTINUOUS, .ES_SYSTEM_REQUIRED, .ES_AWAYMODE_REQUIRED]]
    if env.prevState ≠ 0 then
      ⟨true, { s with m_inhibited := true }, t⟩
    else
      ⟨false, s, t⟩

/-- The function `SuspendInhibitor::release` under `_WIN32`. -/
def release (env : Env) (s : State) : Result State :=
  if !s.m_inhibited then
    ⟨true, s, []⟩
  else
    let t := [OsCall.setThreadExecutionState [.ES_CONTINUOUS]]
    if env.prevState ≠ 0 then
      ⟨true, { s with m_inhibited := false }, t⟩
    else
      ⟨false, { s with m_inhibited := false }, t⟩

/-- The function `SuspendInhibitor::isInhibited`. -/
def isInhibited (s : State) : Bool := s.m_inhibited

end Win32

/-! ## The backend interface seen by `SuspendManager` -/

/-- The static interface of `SuspendInhibitor`; which implementation stands
behind it is fixed at build time. `σ` is the type of its static state and `ω`
the type of the outcomes of its operating-system calls. -/
structure Backend (σ ω : Type) where
  init : σ
  inhibit : ω → String → σ → Result σ
  release : ω → σ → Result σ
  isInhibited : σ → Bool

/-- The build for Linux-class systems. -/
def linux : Backend Linux.State Linux.Env :=
  ⟨Linux.State.init, Linux.inhibit, Linux.release, Linux.isInhibited⟩

/-- The build for Apple-class systems. -/
def apple : Backend Apple.State Apple.Env :=
  ⟨Apple.State.init, Apple.inhibit, Apple.release, Apple.isInhibited⟩

/-- The build for Windows-class systems. -/
def win32 : Backend Win32.State Win32.Env :=
  ⟨Win32.State.init, Win32.inhibit, Win32.release, Win32.isInhibited⟩

/-! ## `SuspendManager` -/

/-- What a call of the manager does towards the backend, in order: the
invocations of `SuspendInhibitor::inhibit` and `SuspendInhibitor::release`, each
followed by the operating-system interactions it performed. -/
inductive Event where
  | inhibit (reason : String)
  | release
  | os (c : OsCall)
  deriving DecidableEq, Repr

/-- Whether the event is an invocation of `SuspendInhibitor::inhibit`. -/
def Event.isInhibit : Event → Bool
  | .inhibit _ => true
  | _ => false

/-- Whether the event is an invocation of `SuspendInhibitor::release`. -/
def Event.isRelease : Event → Bool
  | .release => true
  | _ => false

/-- The invocations of `inhibit` in a trace. -/
def inhibitCalls (t : List Event) : List Event := t.filter Event.isInhibit

/-- The invocations of `release` in a trace. -/
def releaseCalls (t : List Event) : List Event := t.filter Event.isRelease

/-- The members of `SuspendManager`, together with the static state of the
`SuspendInhibitor` it drives. -/
structure SuspendManager (σ : Type) where
  m_activeOperations : Finset String
  m_currentReason : String
  inhibitor : σ

namespace SuspendManager

variable {σ ω : Type}

/-- The manager as created by `instance()`, before any call, with the backend
in its start state. -/
def init (B : Backend σ ω) : SuspendManager σ := ⟨∅, "", B.init⟩

/-- The method `SuspendManager::hasActiveOperations`. -/
def hasActiveOperations (m : SuspendManager σ) : Bool :=
  !decide (m.m_activeOperations = ∅)

/-- The value of `SuspendInhibitor::isInhibited()` in the manager's process. -/
def isInhibited (B : Backend σ ω) (m : SuspendManager σ) : Bool :=
  B.isInhibited m.inhibitor

/-- The method `SuspendManager::updateSuspendInhibition`. -/
def updateSuspendInhibition (B : Backend σ ω) (env : ω) (m : SuspendManager σ) :
    SuspendManager σ × List Event :=
  if m.hasActiveOperations then
    if !B.isInhibited m.inhibitor then
      let r := B.inhibit env m.m_currentReason m.inhibitor
      ({ m with inhibitor := r.state }, Event.inhibit m.m_currentReason :: r.calls.map Event.os)
    else
      (m, [])
  else
    if B.isInhibited m.inhibitor then
      let r := B.release env m.inhibitor
      ({ m with inhibitor := r.state }, Event.release :: r.calls.map Event.os)
    else
      (m, [])

/-- The method `SuspendManager::registerOperation`. -/
def registerOperation (B : Backend σ ω) (env : ω) (operationId description : String)
    (m : SuspendManager σ) : SuspendManager σ × List Event :=
  let wasEmpty := decide (m.m_activeOperations = ∅)
  let m := { m with m_activeOperations := insert operationId m.m_activeOperations }
  if wasEmpty then
    updateSuspendInhibition B env { m with m_currentReason := description }
  else
    (m, [])

/-- The method `SuspendManager::unregisterOperation`. -/
def unregisterOperation (B : Backend σ ω) (env : ω) (operationId : String)
    (m : SuspendManager σ) : SuspendManager σ × List Event :=
  let m := { m with m_activeOperations := m.m_activeOperations.erase operationId }
  if decide (m.m_activeOperations = ∅) then
    updateSuspendInhibition B env m
  else
    (m, [])

end SuspendManager

/-- One call made by a client of the manager, with the outcomes of the
operating-system interactions that happen during it. -/
inductive Call (ω : Type) where
  | registerOperation (operationId description : String) (env : ω)
  | unregisterOperation (operationId : String) (env : ω)

variable {σ ω : Type}

/-- Performs one client call. -/
def step (B : Backend σ ω) (m : SuspendManager σ) : Call ω → SuspendManager σ × List Event
  | .registerOperation operationId description env =>
      SuspendManager.registerOperation B env operationId description m
  | .unregisterOperation operationId env =>
      SuspendManager.unregisterOperation B env operationId m

/-- Performs a sequence of client calls, first to last, and concatenates their traces. -/
def exec (B : Backend σ ω) : List (Call ω) → SuspendManager σ → SuspendManager σ × List Event
  | [], m => (m, [])
  | c :: cs, m => ((exec B cs (step B m c).1).1, (step B m c).2 ++ (exec B cs (step B m c).1).2)

/-- Whether the active set is non-empty after each call of the sequence. -/
def staysActive (B : Backend σ ω) : List (Call ω) → SuspendManager σ → Bool
  | [], _ => true
  | c :: cs, m => (step B m c).1.hasActiveOperations && staysActive B cs (step B m c).1


/-- Whether a D-Bus outcome record lets some mechanism of `Linux.inhibit` succeed. -/
def Linux.Env.inhibitSucceeds (env : Linux.Env) : Bool :=
  (env.logindValid && env.logindReply) ||
  (env.gnomeValid && env.gnomeInhibitReply.isSome) ||
  (env.kdeValid && env.kdeInhibitReply.isSome)

/-- Whether the outcome record lets `Win32.inhibit` succeed. -/
def Win32.Env.inhibitSucceeds (env : Win32.Env) : Bool := decide (env.prevState ≠ 0)

/-- Whether the outcomes attached to a client call satisfy `ok` in case the call
is a registration (the only calls that can invoke `inhibit`). -/
def Call.inhibitOk (ok : ω → Bool) : Call ω → Bool
  | .registerOperation _ _ env => ok env
  | .unregisterOperation _ _ => true

/-- Position of a service in the order in which `Linux.inhibit` turns to them. -/
def Service.rank : Service → Nat
  | .logind => 0
  | .gnomeSession => 1
  | .powerDevil => 2

/-- Whether some interaction of the list is addressed to the service. -/
def attempted (cs : List OsCall) (svc : Service) : Bool :=
  cs.any fun c => decide (c.service = some svc)

/-! ## Notions used to state properties of runs -/

/-- The identifier a client call names. -/
def Call.operationId : Call ω → String
  | .registerOperation operationId _ _ => operationId
  | .unregisterOperation operationId _ => operationId

/-- Whether the client call is a registration. -/
def Call.isRegistration : Call ω → Bool
  | .registerOperation _ _ _ => true
  | .unregisterOperation _ _ => false

/-- In the words of the specification: whether the last call of the sequence that
names `x` is a registration. -/
def lastIsRegistration (x : String) (calls : List (Call ω)) : Bool :=
  match calls.reverse.find? (fun c => decide (c.operationId = x)) with
  | some c => c.isRegistration
  | none => false

/-- The effect of one client call on a set of identifiers, as the data model of the
specification gives it: a registration inserts, an unregistration removes. -/
def Call.applyTo (c : Call ω) (S : Finset String) : Finset String :=
  match c with
  | .registerOperation operationId _ _ => insert operationId S
  | .unregisterOperation operationId _ => S.erase operationId

/-- The set of identifiers after a sequence of client calls started with `S`. -/
def activeAfter (calls : List (Call ω)) (S : Finset String) : Finset String :=
  calls.foldl (fun S c => c.applyTo S) S

/-- In the words of the specification: the description passed by the registration
that most recently found the set empty, for a sequence of client calls started
with the set `S`; `r` is the answer when the sequence has no such registration. -/
def activation : List (Call ω) → Finset String → Option String → Option String
  | [], _, r => r
  | .registerOperation operationId d _ :: cs, S, r =>
      activation cs (insert operationId S) (if S = ∅ then some d else r)
  | .unregisterOperation operationId _ :: cs, S, r => activation cs (S.erase operationId) r

/-- One call made directly on the `__linux` `SuspendInhibitor`, with the outcomes of
its D-Bus interactions. -/
inductive Linux.Op where
  | inhibit (reason : String) (env : Linux.Env)
  | release (env : Linux.Env)

/-- The static state after one direct call. -/
def Linux.apply (s : Linux.State) : Linux.Op → Linux.State
  | .inhibit reason env => (Linux.inhibit env reason s).state
  | .release env => (Linux.release env s).state

/-- The static state after a sequence of direct calls, first to last. -/
def Linux.run (ops : List Linux.Op) (s : Linux.State) : Linux.State :=
  ops.foldl Linux.apply s

/-! ## Sample outcomes and call sequences -/

/-- No D-Bus service is reachable. -/
def Linux.Env.unreachable : Linux.Env :=
  ⟨false, false, false, none, false, none, false, false⟩

/-- Logind is reachable and accepts `Inhibit`. -/
def Linux.Env.logindOk : Linux.Env :=
  ⟨true, true, false, none, false, none, false, false⟩

/-- Logind is reachable but rejects `Inhibit`; GNOME answers `Inhibit` with cookie 7
and accepts `Uninhibit`; PowerDevil would answer with cookie 9. -/
def Linux.Env.gnomeOk : Linux.Env :=
  ⟨true, false, true, some 7, true, some 9, true, true⟩

/-- Every service is reachable and every request is answered with an error. -/
def Linux.Env.allRejected : Linux.Env :=
  ⟨true, false, true, none, true, none, false, false⟩

/-- The scenario of two overlapping operations, with logind available. -/
def Linux.scenario : List (Call Linux.Env) :=
  [.registerOperation "dl-1" "Downloading Fedora Workstation" Linux.Env.logindOk,
   .registerOperation "write-1" "Writing to USB" Linux.Env.logindOk,
   .unregisterOperation "dl-1" Linux.Env.logindOk,
   .unregisterOperation "write-1" Linux.Env.logindOk]

/-- Logind is unreachable; GNOME answers `Inhibit` with cookie 0 and accepts
`Uninhibit`. -/
def Linux.Env.gnomeZero : Linux.Env :=
  ⟨false, false, true, some 0, false, none, true, false⟩

/-- The assertion is created with identifier 5; releasing it reports an error. -/
def Apple.Env.releaseFails : Apple.Env := ⟨true, 5, false⟩

/-! ## Basic facts about traces -/

theorem inhibitCalls_os (l : List OsCall) : inhibitCalls (l.map Event.os) = [] := by
  simp [inhibitCalls, Event.isInhibit]

theorem releaseCalls_os (l : List OsCall) : releaseCalls (l.map Event.os) = [] := by
  simp [releaseCalls, Event.isRelease]

theorem inhibitCalls_append (s t : List Event) :
    inhibitCalls (s ++ t) = inhibitCalls s ++ inhibitCalls t := by
  simp [inhibitCalls]

theorem releaseCalls_append (s t : List Event) :
    releaseCalls (s ++ t) = releaseCalls s ++ releaseCalls t := by
  simp [releaseCalls]

/-! ## Basic facts about the manager -/

namespace SuspendManager

theorem hasActiveOperations_eq_false_iff (m : SuspendManager σ) :
    m.hasActiveOperations = false ↔ m.m_activeOperations = ∅ := by
  simp [hasActiveOperations]

theorem hasActiveOperations_eq_true_iff (m : SuspendManager σ) :
    m.hasActiveOperations = true ↔ m.m_activeOperations ≠ ∅ := by
  simp [hasActiveOperations]

theorem updateSuspendInhibition_activeOperations (B : Backend σ ω) (env : ω)
    (m : SuspendManager σ) :
    (updateSuspendInhibition B env m).1.m_activeOperations = m.m_activeOperations := by
  unfold updateSuspendInhibition
  split_ifs <;> rfl

theorem updateSuspendInhibition_currentReason (B : Backend σ ω) (env : ω)
    (m : SuspendManager σ) :
    (updateSuspendInhibition B env m).1.m_currentReason = m.m_currentReason := by
  unfold updateSuspendInhibition
  split_ifs <;> rfl

theorem registerOperation_activeOperations (B : Backend σ ω) (env : ω) (operationId d : String)
    (m : SuspendManager σ) :
    (registerOperation B env operationId d m).1.m_activeOperations
      = insert operationId m.m_activeOperations := by
  simp only [registerOperation]
  split_ifs
  · rw [updateSuspendInhibition_activeOperations]
  · rfl

theorem unregisterOperation_activeOperations (B : Backend σ ω) (env : ω) (operationId : String)
    (m : SuspendManager σ) :
    (unregisterOperation B env operationId m).1.m_activeOperations
      = m.m_activeOperations.erase operationId := by
  simp only [unregisterOperation]
  split_ifs
  · rw [updateSuspendInhibition_activeOperations]
  · rfl

theorem registerOperation_hasActiveOperations (B : Backend σ ω) (env : ω)
    (operationId d : String) (m : SuspendManager σ) :
    (registerOperation B env operationId d m).1.hasActiveOperations = true := by
  rw [hasActiveOperations_eq_true_iff, registerOperation_activeOperations]
  exact Finset.insert_ne_empty _ _

/-- A registration that finds the set non-empty changes nothing but the set. -/
theorem registerOperation_of_active (B : Backend σ ω) (env : ω) (operationId d : String)
    (m : SuspendManager σ) (h : m.hasActiveOperations = true) :
    registerOperation B env operationId d m
      = ({ m with m_activeOperations := insert operationId m.m_activeOperations }, []) := by
  rw [hasActiveOperations_eq_true_iff] at h
  simp [registerOperation, h]

/-- An unregistration that leaves the set non-empty changes nothing but the set. -/
theorem unregisterOperation_of_active (B : Backend σ ω) (env : ω) (operationId : String)
    (m : SuspendManager σ)
    (h : (unregisterOperation B env operationId m).1.hasActiveOperations = true) :
    unregisterOperation B env operationId m
      = ({ m with m_activeOperations := m.m_activeOperations.erase operationId }, []) := by
  rw [hasActiveOperations_eq_true_iff, unregisterOperation_activeOperations] at h
  simp [unregisterOperation, h]

/-- A registration that finds the set empty while the backend is not inhibited
invokes `inhibit` with its description. -/
theorem registerOperation_of_empty (B : Backend σ ω) (env : ω) (operationId d : String)
    (m : SuspendManager σ) (h : m.hasActiveOperations = false)
    (hi : B.isInhibited m.inhibitor = false) :
    registerOperation B env operationId d m
      = ({ m_activeOperations := insert operationId m.m_activeOperations,
           m_currentReason := d,
           inhibitor := (B.inhibit env d m.inhibitor).state },
         Event.inhibit d :: (B.inhibit env d m.inhibitor).calls.map Event.os) := by
  rw [hasActiveOperations_eq_false_iff] at h
  simp [registerOperation, updateSuspendInhibition, hasActiveOperations, h, hi]

/-- An unregistration that empties the set invokes `release` iff the backend is
inhibited. -/
theorem unregisterOperation_of_emptied (B : Backend σ ω) (env : ω) (operationId : String)
    (m : SuspendManager σ)
    (h : (unregisterOperation B env operationId m).1.hasActiveOperations = false) :
    unregisterOperation B env operationId m
      = if B.isInhibited m.inhibitor then
          ({ m_activeOperations := m.m_activeOperations.erase operationId,
             m_currentReason := m.m_currentReason,
             inhibitor := (B.release env m.inhibitor).state },
           Event.release :: (B.release env m.inhibitor).calls.map Event.os)
        else
          ({ m with m_activeOperations := m.m_activeOperations.erase operationId }, []) := by
  rw [hasActiveOperations_eq_false_iff, unregisterOperation_activeOperations] at h
  simp [unregisterOperation, updateSuspendInhibition, hasActiveOperations, h]

end SuspendManager


/-! ## Runs of client calls -/

open SuspendManager

theorem exec_append (B : Backend σ ω) (cs ds : List (Call ω)) (m : SuspendManager σ) :
    exec B (cs ++ ds) m
      = ((exec B ds (exec B cs m).1).1, (exec B cs m).2 ++ (exec B ds (exec B cs m).1).2) := by
  induction cs generalizing m with
  | nil => simp [exec]
  | cons c cs ih => simp [exec, ih, List.append_assoc]

/-- A property kept by every client call holds after every run. -/
theorem exec_invariant (B : Backend σ ω) (P : SuspendManager σ → Prop)
    (hstep : ∀ m c, P m → P (step B m c).1) (cs : List (Call ω)) (m : SuspendManager σ)
    (h : P m) : P (exec B cs m).1 := by
  induction cs generalizing m with
  | nil => simpa [exec] using h
  | cons c cs ih => simpa [exec] using ih _ (hstep m c h)

/-- With a backend whose `release` always clears the flag, a client call that
leaves the set empty leaves the backend not inhibited, provided the backend was
not inhibited with an empty set before. -/
theorem step_not_inhibited_of_not_active (B : Backend σ ω)
    (hrel : ∀ env s, B.isInhibited (B.release env s).state = false)
    (m : SuspendManager σ) (c : Call ω)
    (h : (step B m c).1.hasActiveOperations = false) :
    isInhibited B (step B m c).1 = false := by
  cases c with
  | registerOperation operationId d env =>
      simp [step, registerOperation_hasActiveOperations] at h
  | unregisterOperation operationId env =>
      simp only [step] at h ⊢
      rw [unregisterOperation_of_emptied B env operationId m h]
      cases hi : B.isInhibited m.inhibitor
      · simp [isInhibited, hi]
      · simp [isInhibited, hrel]

/-- With a backend whose `release` always clears the flag, after every run from
a state that is not inhibited, an empty set implies a cleared flag. -/
theorem exec_not_inhibited_of_not_active (B : Backend σ ω)
    (hrel : ∀ env s, B.isInhibited (B.release env s).state = false)
    (cs : List (Call ω)) (m : SuspendManager σ)
    (hm : m.hasActiveOperations = false → isInhibited B m = false)
    (h : (exec B cs m).1.hasActiveOperations = false) :
    isInhibited B (exec B cs m).1 = false :=
  exec_invariant B (fun m => m.hasActiveOperations = false → isInhibited B m = false)
    (fun m c _ => step_not_inhibited_of_not_active B hrel m c) cs m hm h

/-- With a backend whose `inhibit` succeeds under the outcomes `ok`, a client
call with such outcomes keeps "a non-empty set implies a set flag". -/
theorem step_inhibited_of_active (B : Backend σ ω) (ok : ω → Bool)
    (hinh : ∀ env r s, ok env = true → B.isInhibited s = false →
      B.isInhibited (B.inhibit env r s).state = true)
    (m : SuspendManager σ) (c : Call ω) (hc : c.inhibitOk ok = true)
    (hm : m.hasActiveOperations = true → isInhibited B m = true)
    (h : (step B m c).1.hasActiveOperations = true) :
    isInhibited B (step B m c).1 = true := by
  cases c with
  | registerOperation operationId d env =>
      simp only [step]
      cases ha : m.hasActiveOperations
      · cases hi : B.isInhibited m.inhibitor
        · rw [registerOperation_of_empty B env operationId d m ha hi]
          exact hinh env d _ hc hi
        · rw [hasActiveOperations_eq_false_iff] at ha
          simp [registerOperation, updateSuspendInhibition, hasActiveOperations, ha, hi,
            isInhibited]
      · rw [registerOperation_of_active B env operationId d m ha]
        exact hm ha
  | unregisterOperation operationId env =>
      simp only [step] at h ⊢
      rw [unregisterOperation_of_active B env operationId m h]
      apply hm
      rw [hasActiveOperations_eq_true_iff] at h ⊢
      rw [unregisterOperation_activeOperations] at h
      intro he
      exact h (by simp [he])

theorem exec_inhibited_of_active (B : Backend σ ω) (ok : ω → Bool)
    (hinh : ∀ env r s, ok env = true → B.isInhibited s = false →
      B.isInhibited (B.inhibit env r s).state = true)
    (cs : List (Call ω)) (m : SuspendManager σ) (hcs : ∀ c ∈ cs, c.inhibitOk ok = true)
    (hm : m.hasActiveOperations = true → isInhibited B m = true)
    (h : (exec B cs m).1.hasActiveOperations = true) :
    isInhibited B (exec B cs m).1 = true := by
  induction cs generalizing m with
  | nil => exact hm (by simpa [exec] using h)
  | cons c cs ih =>
      simp only [exec] at h ⊢
      exact ih _ (fun c hc => hcs c (List.mem_cons_of_mem _ hc))
        (step_inhibited_of_active B ok hinh m c (hcs c (List.mem_cons_self _ _)) hm) h

/-- While the set stays non-empty after each call, no call invokes `release`. -/
theorem releaseCalls_of_staysActive (B : Backend σ ω) (cs : List (Call ω))
    (m : SuspendManager σ) (h : staysActive B cs m = true) :
    releaseCalls (exec B cs m).2 = [] := by
  induction cs generalizing m with
  | nil => rfl
  | cons c cs ih =>
      simp only [staysActive, Bool.and_eq_true] at h
      simp only [exec, releaseCalls_append, ih _ h.2, List.append_nil]
      cases c with
      | registerOperation operationId d env =>
          simp only [step]
          simp only [registerOperation, updateSuspendInhibition, hasActiveOperations]
          split_ifs <;> simp_all [releaseCalls, Event.isRelease, releaseCalls_os]
      | unregisterOperation operationId env =>
          have h1 := h.1
          simp only [step] at h1 ⊢
          rw [unregisterOperation_of_active B env operationId m h1]
          rfl

/-- From a non-empty set, while the set stays non-empty after each call, no call
invokes the backend at all. -/
theorem exec_trace_of_staysActive (B : Backend σ ω) (cs : List (Call ω))
    (m : SuspendManager σ) (hm : m.hasActiveOperations = true)
    (h : staysActive B cs m = true) :
    (exec B cs m).2 = [] ∧ (exec B cs m).1.inhibitor = m.inhibitor ∧
      (exec B cs m).1.m_currentReason = m.m_currentReason := by
  induction cs generalizing m with
  | nil => simp [exec]
  | cons c cs ih =>
      simp only [staysActive, Bool.and_eq_true] at h
      have hs : (step B m c).2 = [] ∧ (step B m c).1.inhibitor = m.inhibitor ∧
          (step B m c).1.m_currentReason = m.m_currentReason := by
        cases c with
        | registerOperation operationId d env =>
            simp only [step]
            rw [registerOperation_of_active B env operationId d m hm]
            simp
        | unregisterOperation operationId env =>
            have h1 := h.1
            simp only [step] at h1 ⊢
            rw [unregisterOperation_of_active B env operationId m h1]
            simp
      obtain ⟨e1, e2, e3⟩ := ih _ h.1 h.2
      simp only [exec]
      exact ⟨by rw [hs.1, e1]; rfl, by rw [e2, hs.2.1], by rw [e3, hs.2.2]⟩

/-! ## Facts about the backends -/

theorem Linux.linux_release_clears (env : Linux.Env) (s : Linux.State) :
    (Linux.release env s).state.m_inhibited = false := by
  unfold Linux.release
  split_ifs <;> simp_all

theorem Win32.win32_release_clears (env : Win32.Env) (s : Win32.State) :
    (Win32.release env s).state.m_inhibited = false := by
  unfold Win32.release
  split_ifs <;> simp_all

theorem Linux.linux_inhibit_ret_eq (env : Linux.Env) (reason : String) (s : Linux.State)
    (h : s.m_inhibited = false) :
    (Linux.inhibit env reason s).ret = env.inhibitSucceeds ∧
      (Linux.inhibit env reason s).state.m_inhibited = env.inhibitSucceeds := by
  obtain ⟨lv, lr, gv, gr, kv, kr, gu, ku⟩ := env
  cases lv <;> cases lr <;> cases gv <;> cases gr <;> cases kv <;> cases kr <;>
    simp [Linux.inhibit, Linux.inhibitGnome, Linux.inhibitPowerDevil,
      Linux.Env.inhibitSucceeds, h]

theorem Win32.win32_inhibit_ret_eq (env : Win32.Env) (reason : String) (s : Win32.State)
    (h : s.m_inhibited = false) :
    (Win32.inhibit env reason s).ret = env.inhibitSucceeds ∧
      (Win32.inhibit env reason s).state.m_inhibited = env.inhibitSucceeds := by
  unfold Win32.inhibit Win32.Env.inhibitSucceeds
  split_ifs <;> simp_all


theorem Linux.linux_release_of_not_inhibited (env : Linux.Env) (s : Linux.State)
    (h : s.m_inhibited = false) : Linux.release env s = ⟨true, s, []⟩ := by
  simp [Linux.release, h]

theorem Win32.win32_release_of_not_inhibited (env : Win32.Env) (s : Win32.State)
    (h : s.m_inhibited = false) : Win32.release env s = ⟨true, s, []⟩ := by
  simp [Win32.release, h]

theorem Apple.apple_release_of_not_inhibited (env : Apple.Env) (s : Apple.State)
    (h : s.m_inhibited = false) : Apple.release env s = ⟨true, s, []⟩ := by
  simp [Apple.release, h]

theorem Apple.apple_release_flag (env : Apple.Env) (s : Apple.State) :
    (Apple.release env s).state.m_inhibited = !(Apple.release env s).ret := by
  unfold Apple.release
  split_ifs <;> simp_all

/-! ## The claims -/

/-- C1, as stated, fails: when no D-Bus service is reachable, a registration
leaves the set non-empty and the backend not inhibited. -/
theorem C1_counterexample :
    isInhibited linux (exec linux
        [.registerOperation "dl-1" "Downloading" Linux.Env.unreachable] (init linux)).1
      ≠ (exec linux
        [.registerOperation "dl-1" "Downloading" Linux.Env.unreachable]
        (init linux)).1.hasActiveOperations := by
  decide

/-- C1 (amended): on the desktop-session and execution-state variants, after every
sequence of calls from the initial state, `isInhibited()` implies
`hasActiveOperations()`; and the two are equal when the outcomes of every
registration let `inhibit` succeed. -/
theorem C1_inhibited_tracks_active :
    (∀ calls : List (Call Linux.Env),
      (isInhibited linux (exec linux calls (init linux)).1 = true →
        (exec linux calls (init linux)).1.hasActiveOperations = true) ∧
      ((∀ c ∈ calls, c.inhibitOk Linux.Env.inhibitSucceeds = true) →
        isInhibited linux (exec linux calls (init linux)).1
          = (exec linux calls (init linux)).1.hasActiveOperations)) ∧
    (∀ calls : List (Call Win32.Env),
      (isInhibited win32 (exec win32 calls (init win32)).1 = true →
        (exec win32 calls (init win32)).1.hasActiveOperations = true) ∧
      ((∀ c ∈ calls, c.inhibitOk Win32.Env.inhibitSucceeds = true) →
        isInhibited win32 (exec win32 calls (init win32)).1
          = (exec win32 calls (init win32)).1.hasActiveOperations)) := by
  have key : ∀ {σ ω : Type} (B : Backend σ ω) (ok : ω → Bool),
      B.isInhibited B.init = false →
      (∀ env s, B.isInhibited (B.release env s).state = false) →
      (∀ env r s, ok env = true → B.isInhibited s = false →
        B.isInhibited (B.inhibit env r s).state = true) →
      ∀ calls : List (Call ω),
        (isInhibited B (exec B calls (init B)).1 = true →
          (exec B calls (init B)).1.hasActiveOperations = true) ∧
        ((∀ c ∈ calls, c.inhibitOk ok = true) →
          isInhibited B (exec B calls (init B)).1
            = (exec B calls (init B)).1.hasActiveOperations) := by
    intro σ ω B ok h0 hrel hinh calls
    have h1 : (exec B calls (init B)).1.hasActiveOperations = false →
        isInhibited B (exec B calls (init B)).1 = false :=
      exec_not_inhibited_of_not_active B hrel calls (init B) (fun _ => h0)
    refine ⟨fun hi => ?_, fun hok => ?_⟩
    · cases ha : (exec B calls (init B)).1.hasActiveOperations
      · rw [h1 ha] at hi; cases hi
      · rfl
    · cases ha : (exec B calls (init B)).1.hasActiveOperations
      · exact h1 ha
      · exact exec_inhibited_of_active B ok hinh calls (init B) hok
          (fun h => by simp [init, hasActiveOperations] at h) ha
  refine ⟨key linux _ rfl Linux.linux_release_clears ?_,
    key win32 _ rfl Win32.win32_release_clears ?_⟩
  · intro env r s hok hs
    have := (Linux.linux_inhibit_ret_eq env r s hs).2
    exact this.trans hok
  · intro env r s hok hs
    have := (Win32.win32_inhibit_ret_eq env r s hs).2
    exact this.trans hok

/-- C1 (amended), at the scenario of two overlapping operations stopped before the
last unregistration. -/
theorem C1_inhibited_tracks_active_witness :
    (exec linux (Linux.scenario.take 3) (init linux)).1.hasActiveOperations = true ∧
    isInhibited linux (exec linux (Linux.scenario.take 3) (init linux)).1
      = (exec linux (Linux.scenario.take 3) (init linux)).1.hasActiveOperations :=
  ⟨(C1_inhibited_tracks_active.1 (Linux.scenario.take 3)).1 (by decide),
   (C1_inhibited_tracks_active.1 (Linux.scenario.take 3)).2 (by decide)⟩

/-- C2: on the desktop-session and execution-state variants `release()` always
leaves `isInhibited()` false; on the native sleep-assertion variant the flag
afterwards is the negation of the returned value, and after a successful
`inhibit` a `release()` whose OS call reports failure returns false and
leaves `isInhibited()` true. -/
theorem C2_release_flag :
    (∀ env s, Linux.isInhibited (Linux.release env s).state = false) ∧
    (∀ env s, Win32.isInhibited (Win32.release env s).state = false) ∧
    (∀ env s, Apple.isInhibited (Apple.release env s).state = !(Apple.release env s).ret) ∧
    (Apple.inhibit Apple.Env.releaseFails "Writing" Apple.State.init).state = ⟨true, 5⟩ ∧
    Apple.isInhibited (Apple.release Apple.Env.releaseFails ⟨true, 5⟩).state = true ∧
    (Apple.release Apple.Env.releaseFails ⟨true, 5⟩).ret = false := by
  exact ⟨Linux.linux_release_clears, Win32.win32_release_clears, Apple.apple_release_flag,
    by decide, by decide, by decide⟩

/-- C3: on the desktop-session variant, after every sequence of calls from the
initial state, if `hasActiveOperations()` is false then `isInhibited()` is false,
whatever the D-Bus calls answered. -/
theorem C3_idle_implies_not_inhibited (calls : List (Call Linux.Env))
    (h : (exec linux calls (init linux)).1.hasActiveOperations = false) :
    isInhibited linux (exec linux calls (init linux)).1 = false :=
  exec_not_inhibited_of_not_active linux Linux.linux_release_clears calls (init linux)
    (fun _ => rfl) h

/-- C3, at one operation registered through the GNOME session manager and
unregistered while every service rejects the release. -/
theorem C3_idle_implies_not_inhibited_witness :
    (exec linux [.registerOperation "dl-1" "Downloading" Linux.Env.gnomeOk,
        .unregisterOperation "dl-1" Linux.Env.allRejected] (init linux)).1.hasActiveOperations
      = false ∧
    isInhibited linux (exec linux [.registerOperation "dl-1" "Downloading" Linux.Env.gnomeOk,
        .unregisterOperation "dl-1" Linux.Env.allRejected] (init linux)).1 = false :=
  ⟨by decide, C3_idle_implies_not_inhibited _ (by decide)⟩


/-- C4: on the desktop-session variant, in every state reached from the initial
state, a registration that finds the set empty invokes `inhibit` exactly once,
with its own description, and does not invoke `release`; so does the whole run
made of that registration and of any further calls after each of which the set
is non-empty. A registration that finds the set non-empty invokes nothing. -/
theorem C4_single_activation (calls : List (Call Linux.Env)) (operationId d : String)
    (env : Linux.Env) :
    ((exec linux calls (init linux)).1.hasActiveOperations = false →
      (inhibitCalls (registerOperation linux env operationId d
          (exec linux calls (init linux)).1).2 = [Event.inhibit d] ∧
        releaseCalls (registerOperation linux env operationId d
          (exec linux calls (init linux)).1).2 = []) ∧
      ∀ rest : List (Call Linux.Env),
        staysActive linux rest (registerOperation linux env operationId d
          (exec linux calls (init linux)).1).1 = true →
        inhibitCalls (exec linux (.registerOperation operationId d env :: rest)
          (exec linux calls (init linux)).1).2 = [Event.inhibit d] ∧
        releaseCalls (exec linux (.registerOperation operationId d env :: rest)
          (exec linux calls (init linux)).1).2 = []) ∧
    ((exec linux calls (init linux)).1.hasActiveOperations = true →
      (registerOperation linux env operationId d (exec linux calls (init linux)).1).2 = []) := by
  refine ⟨fun he => ?_, fun ha => ?_⟩
  · have hi : linux.isInhibited (exec linux calls (init linux)).1.inhibitor = false :=
      exec_not_inhibited_of_not_active linux Linux.linux_release_clears calls (init linux)
        (fun _ => rfl) he
    have hreg := registerOperation_of_empty linux env operationId d _ he hi
    have h1 : inhibitCalls (registerOperation linux env operationId d
          (exec linux calls (init linux)).1).2 = [Event.inhibit d] ∧
        releaseCalls (registerOperation linux env operationId d
          (exec linux calls (init linux)).1).2 = [] := by
      rw [hreg]
      constructor
      · show inhibitCalls ([Event.inhibit d] ++ _) = _
        rw [inhibitCalls_append, inhibitCalls_os]; rfl
      · show releaseCalls ([Event.inhibit d] ++ _) = _
        rw [releaseCalls_append, releaseCalls_os]; rfl
    refine ⟨h1, fun rest hrest => ?_⟩
    have ht := (exec_trace_of_staysActive linux rest _
      (registerOperation_hasActiveOperations linux env operationId d _) hrest).1
    simp only [exec, step, ht, List.append_nil]
    exact h1
  · rw [registerOperation_of_active linux env operationId d _ ha]

/-- C4, at three registrations from the initial state, the first answered by the
GNOME session manager, and at a registration that finds the set non-empty. -/
theorem C4_single_activation_witness :
    inhibitCalls (exec linux
      [.registerOperation "dl-1" "Downloading" Linux.Env.gnomeOk,
       .registerOperation "write-1" "Writing" Linux.Env.logindOk,
       .registerOperation "dl-2" "Downloading more" Linux.Env.logindOk]
      (exec linux [] (init linux)).1).2 = [Event.inhibit "Downloading"] ∧
    (registerOperation linux Linux.Env.logindOk "write-1" "Writing"
      (exec linux [.registerOperation "dl-1" "Downloading" Linux.Env.gnomeOk]
        (init linux)).1).2 = [] :=
  ⟨(((C4_single_activation [] "dl-1" "Downloading" Linux.Env.gnomeOk).1 (by decide)).2
    [.registerOperation "write-1" "Writing" Linux.Env.logindOk,
     .registerOperation "dl-2" "Downloading more" Linux.Env.logindOk] (by decide)).1,
   (C4_single_activation [.registerOperation "dl-1" "Downloading" Linux.Env.gnomeOk]
    "write-1" "Writing" Linux.Env.logindOk).2 (by decide)⟩

/-- C5, as stated, fails: when no D-Bus service is reachable at the registration,
the unregistration that empties the set does not invoke `release`. -/
theorem C5_counterexample :
    staysActive linux [.registerOperation "dl-1" "Downloading" Linux.Env.unreachable]
      (init linux) = true ∧
    (exec linux [.registerOperation "dl-1" "Downloading" Linux.Env.unreachable,
      .unregisterOperation "dl-1" Linux.Env.logindOk] (init linux)).1.hasActiveOperations
      = false ∧
    releaseCalls (exec linux [.registerOperation "dl-1" "Downloading" Linux.Env.unreachable,
      .unregisterOperation "dl-1" Linux.Env.logindOk] (init linux)).2 = [] := by
  decide

/-- C5 (amended): for every platform variant, when the set is non-empty after each
call of a sequence started in the initial state and a final `unregisterOperation`
empties it, no call before the final one invokes `release`, and the final call
invokes it exactly once if `isInhibited()` is true when it is made and not at
all otherwise. -/
theorem C5_release_by_final_call (B : Backend σ ω) (pre : List (Call ω))
    (operationId : String) (env : ω)
    (hpre : staysActive B pre (init B) = true)
    (hlast : (unregisterOperation B env operationId
      (exec B pre (init B)).1).1.hasActiveOperations = false) :
    releaseCalls (exec B pre (init B)).2 = [] ∧
    releaseCalls (unregisterOperation B env operationId (exec B pre (init B)).1).2
      = (if isInhibited B (exec B pre (init B)).1 then [Event.release] else []) ∧
    releaseCalls (exec B (pre ++ [.unregisterOperation operationId env]) (init B)).2
      = (if isInhibited B (exec B pre (init B)).1 then [Event.release] else []) := by
  have h1 := releaseCalls_of_staysActive B pre (init B) hpre
  have h2 : releaseCalls (unregisterOperation B env operationId (exec B pre (init B)).1).2
      = (if isInhibited B (exec B pre (init B)).1 then [Event.release] else []) := by
    rw [unregisterOperation_of_emptied B env operationId _ hlast]
    unfold isInhibited
    cases hi : B.isInhibited (exec B pre (init B)).1.inhibitor
    · rfl
    · show releaseCalls ([Event.release] ++ _) = _
      rw [releaseCalls_append, releaseCalls_os]; rfl
  refine ⟨h1, h2, ?_⟩
  rw [exec_append]
  simp only [exec, step, List.append_nil, releaseCalls_append, h1, List.nil_append]
  exact h2

/-- C5 (amended), at the scenario of two overlapping operations: the last
unregistration is the only call that invokes `release`. -/
theorem C5_release_by_final_call_witness :
    releaseCalls (exec linux (Linux.scenario.take 3) (init linux)).2 = [] ∧
    releaseCalls (exec linux
      (Linux.scenario.take 3 ++ [.unregisterOperation "write-1" Linux.Env.logindOk])
      (init linux)).2 = [Event.release] :=
  ⟨(C5_release_by_final_call linux (Linux.scenario.take 3) "write-1" Linux.Env.logindOk
      (by decide) (by decide)).1,
   (C5_release_by_final_call linux (Linux.scenario.take 3) "write-1" Linux.Env.logindOk
      (by decide) (by decide)).2.2⟩


/-- C6: desktop-session `inhibit(reason)` called while not inhibited turns to
logind, the GNOME session manager and the KDE policy agent in that order; GNOME
is attempted iff logind was unreachable or its call failed, KDE iff that also
holds of GNOME; the result is true iff one of them succeeded. When logind fails
and GNOME answers with a 32-bit cookie `c`, KDE is not attempted, the result
and the flag are true and the stored cookie is `c`. -/
theorem C6_fallback_order (env : Linux.Env) (reason : String) (s : Linux.State)
    (hs : s.m_inhibited = false) :
    ((Linux.inhibit env reason s).calls.filterMap OsCall.service).Pairwise
        (fun a b => a.rank ≤ b.rank) ∧
    attempted (Linux.inhibit env reason s).calls .logind = true ∧
    attempted (Linux.inhibit env reason s).calls .gnomeSession
      = !(env.logindValid && env.logindReply) ∧
    attempted (Linux.inhibit env reason s).calls .powerDevil
      = (!(env.logindValid && env.logindReply) &&
          !(env.gnomeValid && env.gnomeInhibitReply.isSome)) ∧
    (Linux.inhibit env reason s).ret
      = ((env.logindValid && env.logindReply) ||
          (env.gnomeValid && env.gnomeInhibitReply.isSome) ||
          (env.kdeValid && env.kdeInhibitReply.isSome)) ∧
    (∀ c : Nat, c < UINT32_MOD → (env.logindValid && env.logindReply) = false →
      env.gnomeValid = true → env.gnomeInhibitReply = some c →
      attempted (Linux.inhibit env reason s).calls .powerDevil = false ∧
      (Linux.inhibit env reason s).ret = true ∧
      (Linux.inhibit env reason s).state = ⟨true, c⟩) := by
  obtain ⟨lv, lr, gv, gr, kv, kr, gu, ku⟩ := env
  obtain ⟨fl, ck⟩ := s
  simp only at hs
  subst hs
  have h5 : ((Linux.inhibit ⟨lv, lr, gv, gr, kv, kr, gu, ku⟩ reason ⟨false, ck⟩).calls.filterMap
        OsCall.service).Pairwise (fun a b => a.rank ≤ b.rank) ∧
      attempted (Linux.inhibit ⟨lv, lr, gv, gr, kv, kr, gu, ku⟩ reason ⟨false, ck⟩).calls
        .logind = true ∧
      attempted (Linux.inhibit ⟨lv, lr, gv, gr, kv, kr, gu, ku⟩ reason ⟨false, ck⟩).calls
        .gnomeSession = !(lv && lr) ∧
      attempted (Linux.inhibit ⟨lv, lr, gv, gr, kv, kr, gu, ku⟩ reason ⟨false, ck⟩).calls
        .powerDevil = (!(lv && lr) && !(gv && gr.isSome)) ∧
      (Linux.inhibit ⟨lv, lr, gv, gr, kv, kr, gu, ku⟩ reason ⟨false, ck⟩).ret
        = ((lv && lr) || (gv && gr.isSome) || (kv && kr.isSome)) := by
    cases lv <;> cases lr <;> cases gv <;> cases gr <;> cases kv <;> cases kr <;>
      simp [Linux.inhibit, Linux.inhibitGnome, Linux.inhibitPowerDevil, attempted,
        OsCall.service, Service.rank]
  obtain ⟨p1, p2, p3, p4, p5⟩ := h5
  refine ⟨p1, p2, p3, p4, p5, ?_⟩
  intro c hc hl hg hr
  simp only at hl hg hr
  subst hg hr
  refine ⟨by rw [p4, hl]; rfl, by rw [p5, hl]; rfl, ?_⟩
  have hmod : c % UINT32_MOD = c := Nat.mod_eq_of_lt hc
  clear p1 p2 p3 p4 p5
  cases lv <;> cases lr <;> simp [Linux.inhibit, Linux.inhibitGnome, hmod] at hl ⊢

/-- C6, when logind rejects the call and GNOME answers with cookie 7. -/
theorem C6_fallback_order_witness :
    attempted (Linux.inhibit Linux.Env.gnomeOk "Downloading" ⟨false, 0⟩).calls .powerDevil
      = false ∧
    (Linux.inhibit Linux.Env.gnomeOk "Downloading" ⟨false, 0⟩).ret = true ∧
    (Linux.inhibit Linux.Env.gnomeOk "Downloading" ⟨false, 0⟩).state = ⟨true, 7⟩ :=
  (C6_fallback_order Linux.Env.gnomeOk "Downloading" ⟨false, 0⟩ rfl).2.2.2.2.2 7
    (by decide) rfl rfl rfl


/-- C7, as stated, fails: a desktop-session `release()` with cookie 7 whose GNOME and
KDE release requests are both rejected issues two OS requests and returns false. -/
theorem C7_counterexample :
    ¬ ((requests ((Linux.release Linux.Env.allRejected ⟨true, 7⟩).calls ++
          (Linux.release Linux.Env.allRejected
            (Linux.release Linux.Env.allRejected ⟨true, 7⟩).state).calls)).length ≤ 1 ∧
        (Linux.release Linux.Env.allRejected ⟨true, 7⟩).ret = true ∧
        (Linux.release Linux.Env.allRejected
          (Linux.release Linux.Env.allRejected ⟨true, 7⟩).state).ret = true) := by
  decide

/-- C7 (amended): on the desktop-session and execution-state variants, in every
backend state, the second of two consecutive `release()` calls issues no OS call
and returns true; the first issues at most two OS requests (desktop-session) or
at most one (execution-state) and returns false exactly when the backend was
inhibited (with a non-zero cookie, on the desktop-session variant) and none of
its release requests succeeded. On the native sleep-assertion variant, when the
first call returns true it issued at most one OS call and the second call issues
none and returns true. -/
theorem C7_release_twice :
    (∀ (env1 env2 : Linux.Env) (s : Linux.State),
      (Linux.release env2 (Linux.release env1 s).state).ret = true ∧
      (Linux.release env2 (Linux.release env1 s).state).calls = [] ∧
      (requests (Linux.release env1 s).calls).length ≤ 2 ∧
      ((Linux.release env1 s).ret = false ↔
        s.m_inhibited = true ∧ s.m_inhibitCookie ≠ 0 ∧
        (env1.gnomeValid && env1.gnomeUninhibitReply) = false ∧
        (env1.kdeValid && env1.kdeReleaseReply) = false)) ∧
    (∀ (env1 env2 : Win32.Env) (s : Win32.State),
      (Win32.release env2 (Win32.release env1 s).state).ret = true ∧
      (Win32.release env2 (Win32.release env1 s).state).calls = [] ∧
      (Win32.release env1 s).calls.length ≤ 1 ∧
      ((Win32.release env1 s).ret = false ↔ s.m_inhibited = true ∧ env1.prevState = 0)) ∧
    (∀ (env1 env2 : Apple.Env) (s : Apple.State),
      (Apple.release env1 s).ret = true →
      (Apple.release env2 (Apple.release env1 s).state).ret = true ∧
      (Apple.release env2 (Apple.release env1 s).state).calls = [] ∧
      (Apple.release env1 s).calls.length ≤ 1) := by
  refine ⟨?_, ?_, ?_⟩
  · intro env1 env2 s
    have hclr := Linux.linux_release_clears env1 s
    rw [Linux.linux_release_of_not_inhibited env2 _ hclr]
    refine ⟨rfl, rfl, ?_, ?_⟩
    · obtain ⟨lv, lr, gv, gr, kv, kr, gu, ku⟩ := env1
      obtain ⟨fl, ck⟩ := s
      cases fl <;> cases gv <;> cases gu <;> cases kv <;>
        by_cases hck : ck = 0 <;>
        simp [Linux.release, Linux.releaseGnome, Linux.releasePowerDevil, requests,
          OsCall.isRequest, hck]
    · obtain ⟨lv, lr, gv, gr, kv, kr, gu, ku⟩ := env1
      obtain ⟨fl, ck⟩ := s
      cases fl <;> cases gv <;> cases gu <;> cases kv <;> cases ku <;>
        by_cases hck : ck = 0 <;>
        simp [Linux.release, Linux.releaseGnome, Linux.releasePowerDevil, hck]
  · intro env1 env2 s
    have hclr := Win32.win32_release_clears env1 s
    rw [Win32.win32_release_of_not_inhibited env2 _ hclr]
    refine ⟨rfl, rfl, ?_, ?_⟩
    · unfold Win32.release
      split_ifs <;> simp
    · obtain ⟨fl, p⟩ := s
      cases fl <;> by_cases hp : env1.prevState = 0 <;> simp [Win32.release, hp]
  · intro env1 env2 s h
    have hclr : (Apple.release env1 s).state.m_inhibited = false := by
      rw [Apple.apple_release_flag, h]
      rfl
    rw [Apple.apple_release_of_not_inhibited env2 _ hclr]
    refine ⟨rfl, rfl, ?_⟩
    unfold Apple.release
    split_ifs <;> simp

/-- C7 (amended), on the native sleep-assertion variant with assertion 5 released
successfully. -/
theorem C7_release_twice_witness :
    (Apple.release ⟨true, 0, true⟩ (Apple.release ⟨true, 0, true⟩ ⟨true, 5⟩).state).ret = true ∧
    (Apple.release ⟨true, 0, true⟩ (Apple.release ⟨true, 0, true⟩ ⟨true, 5⟩).state).calls = [] ∧
    (Apple.release ⟨true, 0, true⟩ ⟨true, 5⟩).calls.length ≤ 1 :=
  C7_release_twice.2.2 ⟨true, 0, true⟩ ⟨true, 0, true⟩ ⟨true, 5⟩ (by decide)

/-- C8: on every platform variant, `inhibit(reason)` called while `isInhibited()` is
true returns true, issues no OS call and leaves the flag and the stored handle
as they were. -/
theorem C8_inhibit_when_inhibited (reason : String) :
    (∀ (env : Linux.Env) (s : Linux.State), Linux.isInhibited s = true →
      (Linux.inhibit env reason s).ret = true ∧ (Linux.inhibit env reason s).calls = [] ∧
      (Linux.inhibit env reason s).state = s) ∧
    (∀ (env : Apple.Env) (s : Apple.State), Apple.isInhibited s = true →
      (Apple.inhibit env reason s).ret = true ∧ (Apple.inhibit env reason s).calls = [] ∧
      (Apple.inhibit env reason s).state = s) ∧
    (∀ (env : Win32.Env) (s : Win32.State), Win32.isInhibited s = true →
      (Win32.inhibit env reason s).ret = true ∧ (Win32.inhibit env reason s).calls = [] ∧
      (Win32.inhibit env reason s).state = s) := by
  refine ⟨fun env s h => ?_, fun env s h => ?_, fun env s h => ?_⟩
  · simp only [Linux.isInhibited] at h
    simp [Linux.inhibit, h]
  · simp only [Apple.isInhibited] at h
    simp [Apple.inhibit, h]
  · simp only [Win32.isInhibited] at h
    simp [Win32.inhibit, h]

/-- C8, on the desktop-session variant holding cookie 7. -/
theorem C8_inhibit_when_inhibited_witness :
    (Linux.inhibit Linux.Env.gnomeOk "Writing" ⟨true, 7⟩).ret = true ∧
    (Linux.inhibit Linux.Env.gnomeOk "Writing" ⟨true, 7⟩).calls = [] ∧
    (Linux.inhibit Linux.Env.gnomeOk "Writing" ⟨true, 7⟩).state = ⟨true, 7⟩ :=
  (C8_inhibit_when_inhibited "Writing").1 Linux.Env.gnomeOk ⟨true, 7⟩ rfl

/-- C9: desktop-session variant, when each of the three mechanisms is unreachable or
rejects the call: `inhibit` called while not inhibited returns false and leaves
flag and cookie as they were, and a `registerOperation` made with an empty set
and a backend that is not inhibited ends with the identifier in the set,
`hasActiveOperations()` true and `isInhibited()` false. -/
theorem C9_all_mechanisms_fail (env : Linux.Env) (operationId description : String)
    (m : SuspendManager Linux.State)
    (h1 : env.logindValid = false ∨ env.logindReply = false)
    (h2 : env.gnomeValid = false ∨ env.gnomeInhibitReply = none)
    (h3 : env.kdeValid = false ∨ env.kdeInhibitReply = none)
    (hi : isInhibited linux m = false) :
    (Linux.inhibit env description m.inhibitor).ret = false ∧
    (Linux.inhibit env description m.inhibitor).state = m.inhibitor ∧
    (m.hasActiveOperations = false →
      operationId ∈ (registerOperation linux env operationId description m).1.m_activeOperations ∧
      (registerOperation linux env operationId description m).1.hasActiveOperations = true ∧
      isInhibited linux (registerOperation linux env operationId description m).1 = false) := by
  have hi' : m.inhibitor.m_inhibited = false := hi
  have hret : (Linux.inhibit env description m.inhibitor).ret = false ∧
      (Linux.inhibit env description m.inhibitor).state = m.inhibitor := by
    obtain ⟨lv, lr, gv, gr, kv, kr, gu, ku⟩ := env
    simp only at h1 h2 h3
    cases lv <;> cases lr <;> cases gv <;> cases gr <;> cases kv <;> cases kr <;>
      simp_all [Linux.inhibit, Linux.inhibitGnome, Linux.inhibitPowerDevil]
  refine ⟨hret.1, hret.2, fun he => ⟨?_, ?_, ?_⟩⟩
  · rw [registerOperation_activeOperations]
    exact Finset.mem_insert_self _ _
  · exact registerOperation_hasActiveOperations linux env operationId description m
  · rw [registerOperation_of_empty linux env operationId description m he hi]
    show (Linux.inhibit env description m.inhibitor).state.m_inhibited = false
    rw [hret.2]
    exact hi'

/-- C9, at the initial state with no D-Bus service reachable. -/
theorem C9_all_mechanisms_fail_witness :
    "dl-1" ∈ (registerOperation linux Linux.Env.unreachable "dl-1" "Downloading"
      (init linux)).1.m_activeOperations ∧
    (registerOperation linux Linux.Env.unreachable "dl-1" "Downloading"
      (init linux)).1.hasActiveOperations = true ∧
    isInhibited linux (registerOperation linux Linux.Env.unreachable "dl-1" "Downloading"
      (init linux)).1 = false :=
  (C9_all_mechanisms_fail Linux.Env.unreachable "dl-1" "Downloading" (init linux)
    (Or.inl rfl) (Or.inl rfl) (Or.inl rfl) rfl).2.2 (by decide)

/-- C10: desktop-session `release()` called while inhibited leaves the flag false and
the cookie 0. With cookie 0 it issues no OS call and returns true. With a
non-zero cookie it turns to GNOME first (`Uninhibit` with the cookie, if
reachable) and to KDE (`ReleaseInhibition` with the cookie, if reachable) only
if the GNOME release did not succeed, and it returns false iff neither release
succeeded. -/
theorem C10_release_when_inhibited (env : Linux.Env) (s : Linux.State)
    (hs : Linux.isInhibited s = true) :
    (Linux.release env s).state = ⟨false, 0⟩ ∧
    (s.m_inhibitCookie = 0 →
      (Linux.release env s).calls = [] ∧ (Linux.release env s).ret = true) ∧
    (s.m_inhibitCookie ≠ 0 →
      (Linux.release env s).calls
        = (OsCall.connect .gnomeSession ::
            (if env.gnomeValid then [OsCall.gnomeUninhibit s.m_inhibitCookie] else [])) ++
          (if env.gnomeValid && env.gnomeUninhibitReply then []
           else OsCall.connect .powerDevil ::
            (if env.kdeValid then [OsCall.kdeReleaseInhibition s.m_inhibitCookie] else [])) ∧
      ((Linux.release env s).ret = false ↔
        (env.gnomeValid && env.gnomeUninhibitReply) = false ∧
        (env.kdeValid && env.kdeReleaseReply) = false)) := by
  obtain ⟨fl, ck⟩ := s
  simp only [Linux.isInhibited] at hs
  subst hs
  obtain ⟨lv, lr, gv, gr, kv, kr, gu, ku⟩ := env
  refine ⟨?_, fun h0 => ?_, fun h0 => ?_⟩
  · by_cases hck : ck = 0 <;> simp [Linux.release, hck]
  · simp only at h0
    simp [Linux.release, h0]
  · simp only at h0
    cases gv <;> cases gu <;> cases kv <;> cases ku <;>
      simp [Linux.release, Linux.releaseGnome, Linux.releasePowerDevil, h0]

/-- C10, with cookie 7 and every release request rejected. -/
theorem C10_release_when_inhibited_witness :
    (Linux.release Linux.Env.allRejected ⟨true, 7⟩).state = ⟨false, 0⟩ ∧
    (Linux.release Linux.Env.allRejected ⟨true, 7⟩).calls
      = [OsCall.connect .gnomeSession, OsCall.gnomeUninhibit 7,
         OsCall.connect .powerDevil, OsCall.kdeReleaseInhibition 7] ∧
    (Linux.release Linux.Env.allRejected ⟨true, 7⟩).ret = false :=
  ⟨(C10_release_when_inhibited Linux.Env.allRejected ⟨true, 7⟩ rfl).1,
   ((C10_release_when_inhibited Linux.Env.allRejected ⟨true, 7⟩ rfl).2.2 (by decide)).1,
   ((C10_release_when_inhibited Linux.Env.allRejected ⟨true, 7⟩ rfl).2.2 (by decide)).2.mpr
     ⟨rfl, rfl⟩⟩


/-! ## Facts about the notions used for runs -/

theorem step_activeOperations (B : Backend σ ω) (m : SuspendManager σ) (c : Call ω) :
    (step B m c).1.m_activeOperations = c.applyTo m.m_activeOperations := by
  cases c with
  | registerOperation x d env => exact registerOperation_activeOperations B env x d m
  | unregisterOperation x env => exact unregisterOperation_activeOperations B env x m

theorem exec_activeOperations (B : Backend σ ω) (cs : List (Call ω)) (m : SuspendManager σ) :
    (exec B cs m).1.m_activeOperations = activeAfter cs m.m_activeOperations := by
  induction cs generalizing m with
  | nil => rfl
  | cons c cs ih =>
      simp only [exec, activeAfter, List.foldl_cons]
      rw [ih, step_activeOperations]
      rfl

theorem lastIsRegistration_concat (x : String) (cs : List (Call ω)) (c : Call ω) :
    lastIsRegistration x (cs ++ [c])
      = if c.operationId = x then c.isRegistration else lastIsRegistration x cs := by
  by_cases h : c.operationId = x
  · simp [lastIsRegistration, List.find?_cons, h]
  · simp [lastIsRegistration, List.find?_cons, h]

theorem activeAfter_concat (cs : List (Call ω)) (c : Call ω) (S : Finset String) :
    activeAfter (cs ++ [c]) S = c.applyTo (activeAfter cs S) := by
  simp [activeAfter]

theorem mem_activeAfter_iff (x : String) (cs : List (Call ω)) :
    x ∈ activeAfter cs ∅ ↔ lastIsRegistration x cs = true := by
  induction cs using List.reverseRecOn with
  | nil => simp [activeAfter, lastIsRegistration]
  | append_singleton cs c ih =>
      rw [lastIsRegistration_concat, activeAfter_concat]
      cases c with
      | registerOperation y d env =>
          by_cases h : y = x
          · simp [Call.applyTo, Call.operationId, Call.isRegistration, h]
          · have h2 : x ≠ y := fun e => h e.symm
            simp [Call.applyTo, Call.operationId, h, h2, ih]
      | unregisterOperation y env =>
          by_cases h : y = x
          · simp [Call.applyTo, Call.operationId, Call.isRegistration, h]
          · have h2 : x ≠ y := fun e => h e.symm
            simp [Call.applyTo, Call.operationId, h, h2, ih]

theorem registerOperation_currentReason (B : Backend σ ω) (env : ω) (x d : String)
    (m : SuspendManager σ) :
    (registerOperation B env x d m).1.m_currentReason
      = if m.m_activeOperations = ∅ then d else m.m_currentReason := by
  simp only [registerOperation]
  split_ifs <;> simp_all [updateSuspendInhibition_currentReason]

theorem unregisterOperation_currentReason (B : Backend σ ω) (env : ω) (x : String)
    (m : SuspendManager σ) :
    (unregisterOperation B env x m).1.m_currentReason = m.m_currentReason := by
  simp only [unregisterOperation]
  split_ifs <;> simp [updateSuspendInhibition_currentReason]

/-- The reason stored by the manager is the one `activation` computes. -/
theorem activation_getD (B : Backend σ ω) (cs : List (Call ω)) (m : SuspendManager σ)
    (r : Option String) (h : r.getD "" = m.m_currentReason) :
    (activation cs m.m_activeOperations r).getD "" = (exec B cs m).1.m_currentReason := by
  induction cs generalizing m r with
  | nil => simpa [activation, exec] using h
  | cons c cs ih =>
      cases c with
      | registerOperation x d env =>
          simp only [activation, exec, step]
          rw [← ih (registerOperation B env x d m).1, registerOperation_activeOperations]
          rw [registerOperation_currentReason]
          split_ifs <;> simp [h]
      | unregisterOperation x env =>
          simp only [activation, exec, step]
          rw [← ih (unregisterOperation B env x m).1, unregisterOperation_activeOperations]
          rw [unregisterOperation_currentReason]
          exact h

/-- When the set ends non-empty, some registration found it empty, unless it was
non-empty from the start. -/
theorem activation_isSome (cs : List (Call ω)) (S : Finset String) (r : Option String)
    (h : S ≠ ∅ → r.isSome = true) (hne : activeAfter cs S ≠ ∅) :
    (activation cs S r).isSome = true := by
  induction cs generalizing S r with
  | nil => exact h (by simpa [activeAfter] using hne)
  | cons c cs ih =>
      cases c with
      | registerOperation x d env =>
          simp only [activation]
          apply ih
          · intro _
            split_ifs with hS
            · rfl
            · exact h hS
          · simpa [activeAfter, Call.applyTo] using hne
      | unregisterOperation x env =>
          simp only [activation]
          apply ih
          · intro hS
            apply h
            intro he
            exact hS (by simp [he])
          · simpa [activeAfter, Call.applyTo] using hne

theorem staysActive_take (B : Backend σ ω) (cs : List (Call ω)) (m : SuspendManager σ)
    (k : Nat) (h : staysActive B cs m = true) : staysActive B (cs.take k) m = true := by
  induction cs generalizing m k with
  | nil => simp [staysActive]
  | cons c cs ih =>
      cases k with
      | zero => simp [staysActive]
      | succ k =>
          simp only [staysActive, Bool.and_eq_true, List.take_succ_cons] at h ⊢
          exact ⟨h.1, ih _ k h.2⟩

theorem Linux.linux_apply_cookie_invariant (s : Linux.State) (op : Linux.Op)
    (h : s.m_inhibited = false → s.m_inhibitCookie = 0) :
    (Linux.apply s op).m_inhibited = false → (Linux.apply s op).m_inhibitCookie = 0 := by
  obtain ⟨fl, ck⟩ := s
  cases op with
  | inhibit reason env =>
      obtain ⟨lv, lr, gv, gr, kv, kr, gu, ku⟩ := env
      cases fl
      · have hck : ck = 0 := h rfl
        subst hck
        cases lv <;> cases lr <;> cases gv <;> cases gr <;> cases kv <;> cases kr <;>
          simp [Linux.apply, Linux.inhibit, Linux.inhibitGnome, Linux.inhibitPowerDevil]
      · simp [Linux.apply, Linux.inhibit]
  | release env =>
      cases fl
      · intro _
        simpa [Linux.apply, Linux.release] using h rfl
      · by_cases hck : ck = 0 <;> simp [Linux.apply, Linux.release, hck]

theorem Linux.linux_run_cookie_invariant (ops : List Linux.Op) (s : Linux.State)
    (h : s.m_inhibited = false → s.m_inhibitCookie = 0) :
    (Linux.run ops s).m_inhibited = false → (Linux.run ops s).m_inhibitCookie = 0 := by
  induction ops generalizing s with
  | nil => simpa [Linux.run] using h
  | cons op ops ih =>
      simp only [Linux.run, List.foldl_cons]
      exact ih _ (Linux.linux_apply_cookie_invariant s op h)

/-- C11, as stated, fails at cookie 0: after an `inhibit` that succeeded through
GNOME with cookie 0, the next `release()` finds GNOME reachable and issues no
`Uninhibit`, indeed no OS call at all. -/
theorem C11_counterexample :
    (Linux.inhibit Linux.Env.gnomeZero "Writing" ⟨false, 0⟩).ret = true ∧
    (Linux.inhibit Linux.Env.gnomeZero "Writing" ⟨false, 0⟩).calls
      = [OsCall.connect .logind, OsCall.connect .gnomeSession, OsCall.gnomeInhibit "Writing"] ∧
    Linux.Env.gnomeZero.gnomeInhibitReply = some 0 ∧
    Linux.Env.gnomeZero.gnomeValid = true ∧
    OsCall.gnomeUninhibit 0 ∉ (Linux.release Linux.Env.gnomeZero
      (Linux.inhibit Linux.Env.gnomeZero "Writing" ⟨false, 0⟩).state).calls := by
  decide

/-- C11 (amended): desktop-session variant, for every non-zero 32-bit cookie `c`: if
`inhibit`, called while not inhibited, succeeded through the GNOME session
manager and GNOME returned `c`, and GNOME is reachable at the next `release()`,
then that `release()` starts with the GNOME `Uninhibit` call with argument `c`. -/
theorem C11_gnome_cookie_returned (c : Nat) (hc0 : c ≠ 0) (hc : c < UINT32_MOD)
    (envI envR : Linux.Env) (reason : String) (s : Linux.State)
    (hs : Linux.isInhibited s = false)
    (hl : (envI.logindValid && envI.logindReply) = false)
    (hg : envI.gnomeValid = true) (hr : envI.gnomeInhibitReply = some c)
    (hv : envR.gnomeValid = true) :
    OsCall.gnomeUninhibit c ∈
      (Linux.release envR (Linux.inhibit envI reason s).state).calls ∧
    (Linux.release envR (Linux.inhibit envI reason s).state).calls.take 2
      = [OsCall.connect .gnomeSession, OsCall.gnomeUninhibit c] := by
  have hmod : c % UINT32_MOD = c := Nat.mod_eq_of_lt hc
  have hst : (Linux.inhibit envI reason s).state = ⟨true, c⟩ := by
    obtain ⟨lv, lr, gv, gr, kv, kr, gu, ku⟩ := envI
    obtain ⟨fl, ck⟩ := s
    simp only [Linux.isInhibited] at hs hl hg hr
    subst hs hg hr
    cases lv <;> cases lr <;> simp [Linux.inhibit, Linux.inhibitGnome, hmod] at hl ⊢
  rw [hst]
  obtain ⟨lv, lr, gv, gr, kv, kr, gu, ku⟩ := envR
  simp only at hv
  subst hv
  cases gu <;> cases kv <;>
    simp [Linux.release, Linux.releaseGnome, Linux.releasePowerDevil, hc0]

/-- C11 (amended), at cookie 7. -/
theorem C11_gnome_cookie_returned_witness :
    OsCall.gnomeUninhibit 7 ∈ (Linux.release Linux.Env.gnomeOk
      (Linux.inhibit Linux.Env.gnomeOk "Writing" ⟨false, 0⟩).state).calls ∧
    (Linux.release Linux.Env.gnomeOk
      (Linux.inhibit Linux.Env.gnomeOk "Writing" ⟨false, 0⟩).state).calls.take 2
      = [OsCall.connect .gnomeSession, OsCall.gnomeUninhibit 7] :=
  C11_gnome_cookie_returned 7 (by decide) (by decide) Linux.Env.gnomeOk Linux.Env.gnomeOk
    "Writing" ⟨false, 0⟩ rfl rfl rfl rfl rfl

/-- C12: for every platform variant and every sequence of calls applied to the
initial state, `hasActiveOperations()` is true afterwards iff some identifier's
last occurrence in the sequence is a registration; more precisely the active
set holds exactly those identifiers, and `hasActiveOperations()` says whether
their number is greater than zero. -/
theorem C12_active_iff_registered (B : Backend σ ω) (calls : List (Call ω)) :
    ((exec B calls (init B)).1.hasActiveOperations = true ↔
      ∃ x, lastIsRegistration x calls = true) ∧
    (∀ x, x ∈ (exec B calls (init B)).1.m_activeOperations ↔
      lastIsRegistration x calls = true) ∧
    (exec B calls (init B)).1.hasActiveOperations
      = decide (0 < (exec B calls (init B)).1.m_activeOperations.card) := by
  have hmem : ∀ x, x ∈ (exec B calls (init B)).1.m_activeOperations ↔
      lastIsRegistration x calls = true := by
    intro x
    rw [exec_activeOperations]
    exact mem_activeAfter_iff x calls
  refine ⟨?_, hmem, ?_⟩
  · rw [hasActiveOperations_eq_true_iff, ← Finset.nonempty_iff_ne_empty]
    constructor
    · rintro ⟨x, hx⟩
      exact ⟨x, (hmem x).1 hx⟩
    · rintro ⟨x, hx⟩
      exact ⟨x, (hmem x).2 hx⟩
  · simp [hasActiveOperations, Finset.card_pos, Finset.nonempty_iff_ne_empty]

/-- C12, at a sequence that registers `dl-1` twice and unregisters it once while
`write-1` stays registered. -/
theorem C12_active_iff_registered_witness :
    (exec linux [.registerOperation "dl-1" "Downloading" Linux.Env.logindOk,
      .registerOperation "dl-1" "Downloading again" Linux.Env.logindOk,
      .registerOperation "write-1" "Writing" Linux.Env.logindOk,
      .unregisterOperation "dl-1" Linux.Env.logindOk] (init linux)).1.hasActiveOperations
      = true :=
  (C12_active_iff_registered linux _).1.mpr ⟨"write-1", by decide⟩

/-- C13: for every platform variant, manager state and identifier `x`: registering
`x` twice gives the same active set as registering it once; one
`unregisterOperation(x)` after that gives a set without `x`, equal to the
original set minus `x`; and if the original set was empty,
`hasActiveOperations()` is then false. -/
theorem C13_duplicate_registration (B : Backend σ ω) (m : SuspendManager σ)
    (x d1 d2 : String) (e1 e2 e3 : ω) :
    (registerOperation B e2 x d2 (registerOperation B e1 x d1 m).1).1.m_activeOperations
      = (registerOperation B e1 x d1 m).1.m_activeOperations ∧
    x ∉ (unregisterOperation B e3 x
      (registerOperation B e2 x d2 (registerOperation B e1 x d1 m).1).1).1.m_activeOperations ∧
    (unregisterOperation B e3 x
      (registerOperation B e2 x d2 (registerOperation B e1 x d1 m).1).1).1.m_activeOperations
      = m.m_activeOperations.erase x ∧
    (m.hasActiveOperations = false →
      (unregisterOperation B e3 x
        (registerOperation B e2 x d2 (registerOperation B e1 x d1 m).1).1).1.hasActiveOperations
        = false) := by
  simp only [unregisterOperation_activeOperations, registerOperation_activeOperations,
    hasActiveOperations_eq_false_iff]
  refine ⟨by simp, by simp, by simp, fun h => by simp [h]⟩

/-- C13, at the initial state of the desktop-session variant. -/
theorem C13_duplicate_registration_witness :
    (unregisterOperation linux Linux.Env.logindOk "dl-1"
      (registerOperation linux Linux.Env.logindOk "dl-1" "Downloading again"
        (registerOperation linux Linux.Env.logindOk "dl-1" "Downloading"
          (init linux)).1).1).1.hasActiveOperations = false :=
  (C13_duplicate_registration linux (init linux) "dl-1" "Downloading" "Downloading again"
    Linux.Env.logindOk Linux.Env.logindOk Linux.Env.logindOk).2.2.2 (by decide)


/-- C14: for every platform variant, `registerOperation` called while the active set
is non-empty leaves `m_currentReason` (and the backend) unchanged and issues no
backend call; and after every sequence of calls from the initial state that
ends with a non-empty set, `m_currentReason` is the description passed by the
registration that most recently found the set empty. -/
theorem C14_sticky_reason (B : Backend σ ω) :
    (∀ (m : SuspendManager σ) (env : ω) (x d : String), m.hasActiveOperations = true →
      (registerOperation B env x d m).1.m_currentReason = m.m_currentReason ∧
      (registerOperation B env x d m).1.inhibitor = m.inhibitor ∧
      (registerOperation B env x d m).2 = []) ∧
    (∀ calls : List (Call ω), (exec B calls (init B)).1.hasActiveOperations = true →
      activation calls ∅ none = some (exec B calls (init B)).1.m_currentReason) := by
  refine ⟨fun m env x d h => ?_, fun calls h => ?_⟩
  · rw [registerOperation_of_active B env x d m h]
    exact ⟨rfl, rfl, rfl⟩
  · have hne : activeAfter calls ∅ ≠ ∅ := by
      rw [hasActiveOperations_eq_true_iff, exec_activeOperations] at h
      exact h
    have hsome := activation_isSome calls ∅ none (fun h0 => absurd rfl h0) hne
    have hget := activation_getD B calls (init B) none rfl
    obtain ⟨v, hv⟩ := Option.isSome_iff_exists.1 hsome
    have hv2 : activation calls (init B).m_activeOperations none = some v := hv
    rw [hv2] at hget
    rw [hv]
    exact congrArg some hget

/-- C14, at the scenario of two overlapping operations stopped before the last
unregistration, on the desktop-session variant. -/
theorem C14_sticky_reason_witness :
    ((registerOperation linux Linux.Env.logindOk "write-1" "Writing to USB"
        (exec linux (Linux.scenario.take 1) (init linux)).1).1.m_currentReason
      = (exec linux (Linux.scenario.take 1) (init linux)).1.m_currentReason ∧
    (registerOperation linux Linux.Env.logindOk "write-1" "Writing to USB"
        (exec linux (Linux.scenario.take 1) (init linux)).1).1.inhibitor
      = (exec linux (Linux.scenario.take 1) (init linux)).1.inhibitor ∧
    (registerOperation linux Linux.Env.logindOk "write-1" "Writing to USB"
        (exec linux (Linux.scenario.take 1) (init linux)).1).2 = []) ∧
    activation (Linux.scenario.take 3) ∅ none
      = some (exec linux (Linux.scenario.take 3) (init linux)).1.m_currentReason :=
  ⟨(C14_sticky_reason linux).1 _ Linux.Env.logindOk "write-1" "Writing to USB" (by decide),
   (C14_sticky_reason linux).2 (Linux.scenario.take 3) (by decide)⟩

/-- C15: desktop-session variant, in every state reached from the initial state,
`unregisterOperation(id)` for an identifier that is not in the active set
leaves the whole state (active set, `m_currentReason`, flag and cookie)
unchanged and issues no backend call, also when the set is empty. -/
theorem C15_unregister_absent (calls : List (Call Linux.Env)) (x : String) (env : Linux.Env)
    (hx : x ∉ (exec linux calls (init linux)).1.m_activeOperations) :
    unregisterOperation linux env x (exec linux calls (init linux)).1
      = ((exec linux calls (init linux)).1, []) := by
  have he : (exec linux calls (init linux)).1.m_activeOperations.erase x
      = (exec linux calls (init linux)).1.m_activeOperations := Finset.erase_eq_of_not_mem hx
  cases ha : (exec linux calls (init linux)).1.hasActiveOperations
  · have hi : linux.isInhibited (exec linux calls (init linux)).1.inhibitor = false :=
      exec_not_inhibited_of_not_active linux Linux.linux_release_clears calls (init linux)
        (fun _ => rfl) ha
    have hlast : (unregisterOperation linux env x
        (exec linux calls (init linux)).1).1.hasActiveOperations = false := by
      rw [hasActiveOperations_eq_false_iff, unregisterOperation_activeOperations, he]
      exact (hasActiveOperations_eq_false_iff _).1 ha
    rw [unregisterOperation_of_emptied linux env x _ hlast, hi, he]
    rfl
  · have hlast : (unregisterOperation linux env x
        (exec linux calls (init linux)).1).1.hasActiveOperations = true := by
      rw [hasActiveOperations_eq_true_iff, unregisterOperation_activeOperations, he]
      exact (hasActiveOperations_eq_true_iff _).1 ha
    rw [unregisterOperation_of_active linux env x _ hlast, he]

/-- C15, for an unknown identifier while one operation is active, and for an
identifier unregistered a second time when the set is already empty. -/
theorem C15_unregister_absent_witness :
    (unregisterOperation linux Linux.Env.gnomeOk "write-9"
        (exec linux (Linux.scenario.take 1) (init linux)).1).2 = [] ∧
    (unregisterOperation linux Linux.Env.gnomeOk "write-1"
        (exec linux Linux.scenario (init linux)).1).2 = [] :=
  ⟨congrArg Prod.snd
      (C15_unregister_absent (Linux.scenario.take 1) "write-9" Linux.Env.gnomeOk (by decide)),
   congrArg Prod.snd
      (C15_unregister_absent Linux.scenario "write-1" Linux.Env.gnomeOk (by decide))⟩

/-- C16: desktop-session backend, in every state reached from (flag false, cookie 0)
by `inhibit` and `release` calls with any D-Bus outcomes: a non-zero cookie
implies that the flag is true; equivalently a false flag implies cookie 0; so
after an `inhibit` that succeeded through logind in such a state, the next
`release()` sends no cookie, indeed issues no OS call. -/
theorem C16_cookie_implies_inhibited (ops : List Linux.Op) :
    ((Linux.run ops Linux.State.init).m_inhibitCookie ≠ 0 →
      (Linux.run ops Linux.State.init).m_inhibited = true) ∧
    ((Linux.run ops Linux.State.init).m_inhibited = false →
      (Linux.run ops Linux.State.init).m_inhibitCookie = 0) ∧
    (∀ (reason : String) (envI envR : Linux.Env),
      (Linux.run ops Linux.State.init).m_inhibited = false →
      envI.logindValid = true → envI.logindReply = true →
      (Linux.release envR
        (Linux.inhibit envI reason (Linux.run ops Linux.State.init)).state).calls = []) := by
  have hinv := Linux.linux_run_cookie_invariant ops Linux.State.init (fun _ => rfl)
  refine ⟨fun hne => ?_, hinv, fun reason envI envR hfl hv hr => ?_⟩
  · cases hfl : (Linux.run ops Linux.State.init).m_inhibited
    · exact absurd (hinv hfl) hne
    · rfl
  · have hck := hinv hfl
    simp [Linux.inhibit, Linux.release, hfl, hv, hr, hck]

/-- C16, after an episode through GNOME with cookie 7 that was released, followed
by an `inhibit` answered by logind. -/
theorem C16_cookie_implies_inhibited_witness :
    (Linux.run [.inhibit "Downloading" Linux.Env.gnomeOk, .release Linux.Env.allRejected]
      Linux.State.init).m_inhibitCookie = 0 ∧
    (Linux.release Linux.Env.gnomeOk
      (Linux.inhibit Linux.Env.logindOk "Writing"
        (Linux.run [.inhibit "Downloading" Linux.Env.gnomeOk, .release Linux.Env.allRejected]
          Linux.State.init)).state).calls = [] :=
  ⟨(C16_cookie_implies_inhibited
      [.inhibit "Downloading" Linux.Env.gnomeOk, .release Linux.Env.allRejected]).2.1
      (by decide),
   (C16_cookie_implies_inhibited
      [.inhibit "Downloading" Linux.Env.gnomeOk, .release Linux.Env.allRejected]).2.2
      "Writing" Linux.Env.logindOk Linux.Env.gnomeOk (by decide) rfl rfl⟩

/-- C17: desktop-session variant, in every state reached from the initial state with
an empty set: if the `inhibit` invoked by a registration returns false, then
the further calls after each of which the set is non-empty issue no backend
call, and `isInhibited()` is false after the registration and after each of
them. -/
theorem C17_failed_inhibit_not_retried (calls : List (Call Linux.Env))
    (operationId d : String) (env : Linux.Env) (rest : List (Call Linux.Env))
    (he : (exec linux calls (init linux)).1.hasActiveOperations = false)
    (hf : (Linux.inhibit env d (exec linux calls (init linux)).1.inhibitor).ret = false)
    (hrest : staysActive linux rest
      (registerOperation linux env operationId d (exec linux calls (init linux)).1).1 = true) :
    isInhibited linux
      (registerOperation linux env operationId d (exec linux calls (init linux)).1).1 = false ∧
    (exec linux rest
      (registerOperation linux env operationId d (exec linux calls (init linux)).1).1).2 = [] ∧
    ∀ k : Nat, isInhibited linux (exec linux (rest.take k)
      (registerOperation linux env operationId d (exec linux calls (init linux)).1).1).1
        = false := by
  have hi : linux.isInhibited (exec linux calls (init linux)).1.inhibitor = false :=
    exec_not_inhibited_of_not_active linux Linux.linux_release_clears calls (init linux)
      (fun _ => rfl) he
  have hreg : isInhibited linux
      (registerOperation linux env operationId d (exec linux calls (init linux)).1).1
        = false := by
    rw [registerOperation_of_empty linux env operationId d _ he hi]
    have h := Linux.linux_inhibit_ret_eq env d (exec linux calls (init linux)).1.inhibitor hi
    show (Linux.inhibit env d (exec linux calls (init linux)).1.inhibitor).state.m_inhibited
      = false
    rw [h.2, ← h.1]
    exact hf
  have hact := registerOperation_hasActiveOperations linux env operationId d
    (exec linux calls (init linux)).1
  refine ⟨hreg, (exec_trace_of_staysActive linux rest _ hact hrest).1, fun k => ?_⟩
  have hk := exec_trace_of_staysActive linux (rest.take k) _ hact
    (staysActive_take linux rest _ k hrest)
  unfold isInhibited at hreg ⊢
  rw [hk.2.1]
  exact hreg

/-- C17, when no D-Bus service is reachable at the first of three registrations. -/
theorem C17_failed_inhibit_not_retried_witness :
    (exec linux
      [.registerOperation "write-1" "Writing" Linux.Env.logindOk,
       .registerOperation "dl-2" "Downloading more" Linux.Env.gnomeOk]
      (registerOperation linux Linux.Env.unreachable "dl-1" "Downloading"
        (exec linux [] (init linux)).1).1).2 = [] ∧
    isInhibited linux (exec linux
      ([.registerOperation "write-1" "Writing" Linux.Env.logindOk,
        .registerOperation "dl-2" "Downloading more" Linux.Env.gnomeOk].take 2)
      (registerOperation linux Linux.Env.unreachable "dl-1" "Downloading"
        (exec linux [] (init linux)).1).1).1 = false :=
  ⟨(C17_failed_inhibit_not_retried [] "dl-1" "Downloading" Linux.Env.unreachable
      [.registerOperation "write-1" "Writing" Linux.Env.logindOk,
       .registerOperation "dl-2" "Downloading more" Linux.Env.gnomeOk]
      (by decide) (by decide) (by decide)).2.1,
   (C17_failed_inhibit_not_retried [] "dl-1" "Downloading" Linux.Env.unreachable
      [.registerOperation "write-1" "Writing" Linux.Env.logindOk,
       .registerOperation "dl-2" "Downloading more" Linux.Env.gnomeOk]
      (by decide) (by decide) (by decide)).2.2 2⟩


end MediaWriter
